import Mathlib

/-!
# Verification of the admin-dash authentication / RBAC core

Shallow embedding of the security-relevant parts of the `cloudmetrics-ai/admin-dash`
backend (FastAPI + SQLAlchemy), translated from:

* `src/backend/app/core/security.py`   — password hashing wrapper, JWT issue/validate
* `src/backend/app/services/permission_service.py` — permission resolution + checks
* `src/backend/app/services/mfa_service.py`        — TOTP / backup-code verification
* `src/backend/app/api/v1/auth.py`     — login, refresh, forgot-password, resend-verification
* `src/backend/app/api/v1/mfa.py`      — MFA verify / disable endpoints

Modelling conventions:

* Time is a `Nat` counting seconds (python `datetime.utcnow()` / JWT numeric dates).
* JWT claim maps are a record of the claim keys that actually occur in this code base;
  an absent key is `none`.
* A JWT string is modelled as either a well-signed payload (`Token.signed key payload`,
  where `key` is the signing secret used) or an unparseable blob (`Token.malformed`).
  `jose.jwt.decode` checks the signature and then the `exp` claim; the python-jose
  `_validate_exp` (leeway 0) rejects exactly when `exp < now`, i.e. a token whose
  `exp` equals the current instant is still accepted.
* bcrypt digests are modelled as either a well-formed digest (identified by the
  password it hashes, salts abstracted away) or a malformed string;
  `bcrypt.checkpw` raises `ValueError("Invalid salt")` on a malformed digest,
  modelled as `Except.error`.
* External pure primitives (`hashlib.sha256`, `pyotp.TOTP(...).verify` at the current
  instant, `base64.b64decode`) are bundled in a `Crypto` parameter record; all
  theorems hold for every choice of these functions.
* SQLAlchemy sessions: the user table is a `List User`; `query(...).first()` is
  `List.find?`; `db.commit()` after mutating an attached row is replacing that row
  (keyed by primary key `id`) in the list.  The ORM relationship `user.role` is
  modelled as an `Option Role` carried on the user; `user.role_id` is set exactly
  when `user.role` is (foreign-key coherence of the relational store).
-/

namespace AdminDash

deriving instance DecidableEq for Except

/-- JWT claim set: the flat key-value map, restricted to the claim keys this code
base ever writes (`sub`, `user_id`, `role`, `permissions`, `mfa_pending`,
`mfa_verified`, `exp`, `iat`).  `none` means the key is absent. -/
structure Claims where
  sub : Option String := none
  user_id : Option String := none
  role : Option String := none
  permissions : Option (List String) := none
  mfa_pending : Option Bool := none
  mfa_verified : Option Bool := none
  exp : Option Nat := none
  iat : Option Nat := none
  deriving DecidableEq, Repr

/-- A JWT string: either a payload signed with a given secret, or garbage. -/
inductive Token where
  | signed (key : String) (payload : Claims)
  | malformed (raw : String)
  deriving DecidableEq, Repr

/-- The security-relevant part of `app/core/config.py` `Settings`. -/
structure Settings where
  SECRET_KEY : String
  ACCESS_TOKEN_EXPIRE_MINUTES : Nat := 30
  REFRESH_TOKEN_EXPIRE_DAYS : Nat := 7
  deriving DecidableEq, Repr

/-- Embeds `security.create_access_token(data, expires_delta)`: copies `data`, sets
`exp := now + delta` (default `ACCESS_TOKEN_EXPIRE_MINUTES` minutes) and
`iat := now`, and signs with `settings.SECRET_KEY`.  `expires_delta` is in
seconds (python `timedelta`). -/
def create_access_token (S : Settings) (now : Nat) (data : Claims)
    (expires_delta : Option Nat) : Token :=
  let expire := now + expires_delta.getD (S.ACCESS_TOKEN_EXPIRE_MINUTES * 60)
  Token.signed S.SECRET_KEY { data with exp := some expire, iat := some now }

/-- Embeds `security.create_refresh_token(data)`: `create_access_token` with a
`REFRESH_TOKEN_EXPIRE_DAYS`-day expiry. -/
def create_refresh_token (S : Settings) (now : Nat) (data : Claims) : Token :=
  create_access_token S now data (some (S.REFRESH_TOKEN_EXPIRE_DAYS * 86400))

/-- Embeds `security.decode_token(token)`: `jose.jwt.decode` with key and algorithm checks;
returns the payload, or `none` on any signature mismatch, malformed structure,
or expiry.  python-jose expiry check (leeway 0): expired iff `exp < now`. -/
def decode_token (S : Settings) (now : Nat) (token : Token) : Option Claims :=
  match token with
  | Token.malformed _ => none
  | Token.signed key payload =>
    if key = S.SECRET_KEY then
      match payload.exp with
      | some e => if e < now then none else some payload
      | none => some payload
    else none

/-- A password digest string as held in `users.hashed_password`: either a
well-formed bcrypt digest (identified, salts abstracted, by the unique password
that verifies against it) or a string that does not parse as a bcrypt digest. -/
inductive Digest where
  | bcrypt (password : String)
  | malformed (raw : String)
  deriving DecidableEq, Repr

/-- Embeds `bcrypt.checkpw(password, hashed)`: on a digest that does not parse as a bcrypt
hash, raises `ValueError("Invalid salt")`; otherwise compares in constant time. -/
def bcrypt_checkpw (plain : String) (hashed : Digest) : Except String Bool :=
  match hashed with
  | Digest.bcrypt p => Except.ok (plain = p)
  | Digest.malformed _ => Except.error "Invalid salt"

/-- Embeds `security.verify_password(plain_password, hashed_password)`: a direct call to
`bcrypt.checkpw` with no exception handling. -/
def verify_password (plain_password : String) (hashed_password : Digest) :
    Except String Bool :=
  bcrypt_checkpw plain_password hashed_password

/-- Embeds `app/models/role.py` `Permission`: only the `name` column is read by the
permission-checking code. -/
structure Permission where
  name : String
  deriving DecidableEq, Repr

/-- Embeds `app/models/role.py` `Role`: `name` plus the many-to-many `permissions`. -/
structure Role where
  name : String
  permissions : List Permission
  deriving DecidableEq, Repr

/-- Embeds `app/models/user.py` `User`, restricted to the columns the verified code reads.
`role` is the ORM relationship (present iff `role_id` is set, by foreign-key
coherence).  `mfa_secret` holds the base64-"encrypted" TOTP secret;
`mfa_backup_codes` the JSON-decoded list of sha256 hex digests of the codes. -/
structure User where
  id : String
  email : String
  hashed_password : Digest
  is_active : Bool := true
  is_superuser : Bool := false
  email_verified : Bool := false
  role : Option Role := none
  mfa_enabled : Bool := false
  mfa_secret : Option String := none
  mfa_backup_codes : Option (List String) := none
  verification_token : Option String := none
  verification_token_expires : Option Nat := none
  reset_token : Option String := none
  reset_token_expires : Option Nat := none
  deriving DecidableEq, Repr

/-- Embeds `PermissionService.get_user_permissions(user, db)`: `[]` when the user has no
role, else the names of the granted permissions of the role, verbatim. -/
def get_user_permissions (user : User) : List String :=
  match user.role with
  | none => []
  | some r => r.permissions.map Permission.name

/-- Embeds `permission.split(chr(46))[0]`: the substring before the first dot. -/
def permission_category (permission : String) : String :=
  String.mk (permission.toList.takeWhile (fun c => ¬ (c = '.')))

/-- Embeds `PermissionService.user_has_permission(user, permission, db)`:
`system.*` global wildcard, then exact match, then `<category>.*` wildcard
(only when the requested name contains a dot). -/
def user_has_permission (user : User) (permission : String) : Bool :=
  let permissions := get_user_permissions user
  if "system.*" ∈ permissions then true
  else if permission ∈ permissions then true
  else if '.' ∈ permission.toList then
    decide ((permission_category permission ++ ".*") ∈ permissions)
  else false

/-- The external pure primitives the MFA service calls, bundled as a parameter:
`hashlib.sha256(code).hexdigest()`, `pyotp.TOTP(secret).verify(code, valid_window=1)`
evaluated at the current instant, and `base64.b64decode` (the placeholder
"decryption" of the stored MFA secret).  Every theorem below holds for every
choice of these functions. -/
structure Crypto where
  sha256hex : String → String
  totp_verify : String → String → Bool
  b64decode : String → String

/-- Embeds `MFAService.hash_backup_code(code)`: sha256 hex digest. -/
def hash_backup_code (C : Crypto) (code : String) : String :=
  C.sha256hex code

/-- Embeds `MFAService.verify_backup_code(code, hashed_codes)`: hash the submitted code and
report whether (and which) stored hash it matches. -/
def verify_backup_code (C : Crypto) (code : String) (hashed_codes : List String) :
    Bool × Option String :=
  let code_hash := hash_backup_code C code
  if code_hash ∈ hashed_codes then (true, some code_hash)
  else (false, none)

/-- python `list.remove(x)`: drop the first occurrence of `x` (caller guarantees
membership; on an empty list the python call would raise, unreachable here). -/
def removeFirst (l : List String) (x : String) : List String :=
  match l with
  | [] => []
  | y :: ys => if y = x then ys else y :: removeFirst ys x

/-- Embeds `MFAService.decrypt_secret(encrypted_secret)`: the placeholder reversible
encoding is plain base64. -/
def decrypt_secret (C : Crypto) (encrypted_secret : String) : String :=
  C.b64decode encrypted_secret

/-- Embeds `MFAService.verify_totp(secret, code, window=1)`: pyotp verification at the
current instant; any exception inside pyotp yields `False`, so the call is total. -/
def verify_totp (C : Crypto) (secret : String) (code : String) : Bool :=
  C.totp_verify secret code

/-- Embeds `MFAService.verify_user_totp(user, code)`: `False` unless MFA is enabled and a
secret is stored (python truthiness: `None` or the empty string fail the check);
else decrypt the stored secret and run TOTP verification. -/
def verify_user_totp (C : Crypto) (user : User) (code : String) : Bool :=
  if user.mfa_enabled = false ∨ user.mfa_secret.getD "" = "" then false
  else verify_totp C (decrypt_secret C (user.mfa_secret.getD "")) code

/-- Embeds `MFAService.verify_user_backup_code(db, user, code)`: `False` unless MFA is
enabled and backup codes are stored; on a hash match, the matched hash is removed
from the stored list and the change committed before returning `True`.  Returns
the (possibly updated) user row alongside the verdict. -/
def verify_user_backup_code (C : Crypto) (user : User) (code : String) :
    Bool × User :=
  if user.mfa_enabled = false ∨ user.mfa_backup_codes.isNone then (false, user)
  else
    let hashed_codes := user.mfa_backup_codes.getD []
    match verify_backup_code C code hashed_codes with
    | (true, matched_hash) =>
      (true, { user with
                mfa_backup_codes := some (removeFirst hashed_codes (matched_hash.getD "")) })
    | (false, _) => (false, user)

/-- Embeds `MFAService.disable_mfa(db, user)`: clear the enabled flag, the secret and the
backup codes, and commit. -/
def service_disable_mfa (user : User) : User :=
  { user with mfa_enabled := false, mfa_secret := none, mfa_backup_codes := none }

/-- A FastAPI-level outcome: an `HTTPException(status_code, detail)` raised by the
endpoint, or an exception escaping the endpoint uncaught (e.g. the bcrypt
`ValueError` on a malformed digest). -/
inductive ApiError where
  | http (statusCode : Nat) (detail : String)
  | uncaught (msg : String)
  deriving DecidableEq, Repr

/-- Schema `TokenWithRefresh`: the session/refresh pair returned on full login. -/
structure TokenWithRefresh where
  access_token : Token
  refresh_token : Token
  token_type : String := "bearer"
  deriving DecidableEq, Repr

/-- Schema `Token`: the access-token-only response of the refresh endpoint. -/
structure TokenOut where
  access_token : Token
  token_type : String := "bearer"
  deriving DecidableEq, Repr

/-- The two success shapes of `POST /auth/login`: a full token pair, or the
`MFALoginResponse` challenge. -/
inductive LoginResult where
  | tokens (pair : TokenWithRefresh)
  | mfaChallenge (mfa_required : Bool) (temp_token : Token) (message : String)
  deriving DecidableEq, Repr

/-- The store row update `db.commit()` performs after mutating user `u`
(keyed by primary key `id`). -/
def commitUser (db : List User) (u : User) : List User :=
  db.map (fun v => if v.id = u.id then u else v)

/-- The `token_data` dict built by the non-MFA branch of `auth.login`: subject,
user id, role name (default `"user"`), and the freshly resolved permission list
(default `[]` when the user has no role). -/
def login_token_data (user : User) : Claims :=
  { sub := some user.email
    user_id := some user.id
    role := some (match user.role with
      | some r => r.name
      | none => "user")
    permissions := some (match user.role with
      | some _ => get_user_permissions user
      | none => []) }

/-- Embeds `auth.login(login_data, db)`: find the user by email; generic 401 on unknown
email or wrong password; 403 on inactive account or unverified email; when MFA is
enabled, mint a 5-minute challenge token carrying `mfa_pending` and return the
challenge; else embed role and permissions in `token_data` and mint the
session/refresh pair (both from the same `token_data`). -/
def login (S : Settings) (now : Nat) (db : List User)
    (email password : String) : Except ApiError LoginResult :=
  match db.find? (fun u => u.email = email) with
  | none => Except.error (ApiError.http 401 "Incorrect email or password")
  | some user =>
    match verify_password password user.hashed_password with
    | Except.error e => Except.error (ApiError.uncaught e)
    | Except.ok false => Except.error (ApiError.http 401 "Incorrect email or password")
    | Except.ok true =>
      if user.is_active = false then
        Except.error (ApiError.http 403 "User account is inactive")
      else if user.email_verified = false then
        Except.error (ApiError.http 403
          "Please verify your email before logging in. Check your inbox for the verification link.")
      else if user.mfa_enabled then
        Except.ok (LoginResult.mfaChallenge true
          (create_access_token S now
            { sub := some user.email, user_id := some user.id, mfa_pending := some true }
            (some (5 * 60)))
          "MFA verification required")
      else
        Except.ok (LoginResult.tokens
          { access_token := create_access_token S now (login_token_data user) none
            refresh_token := create_refresh_token S now (login_token_data user) })

/-- Embeds `auth.refresh_token(refresh_token, db)`: decode the presented token (401 when
invalid), read `sub` (401 when absent), find the user by that email (401 when
missing or inactive), then mint a new access token whose `token_data` is just
`sub` and `user_id`. -/
def refresh_endpoint (S : Settings) (now : Nat) (db : List User)
    (refresh_token : Token) : Except ApiError TokenOut :=
  match decode_token S now refresh_token with
  | none => Except.error (ApiError.http 401 "Invalid refresh token")
  | some payload =>
    match payload.sub with
    | none => Except.error (ApiError.http 401 "Invalid refresh token")
    | some user_email =>
      match db.find? (fun u => u.email = user_email) with
      | none => Except.error (ApiError.http 401 "User not found or inactive")
      | some user =>
        if user.is_active = false then
          Except.error (ApiError.http 401 "User not found or inactive")
        else
          let token_data : Claims := { sub := some user.email, user_id := some user.id }
          Except.ok { access_token := create_access_token S now token_data none }

/-- Embeds `mfa.verify_mfa(request, db)`: decode the submitted `temp_token` (401 when
invalid/expired), require a `user_id` claim (python truthiness, 401 when absent or
empty), look the user up (401 when missing), then try TOTP and — only if that
fails — a backup code (consuming it on success); 401 "Invalid MFA code" when both
fail, else mint the full session/refresh pair marking `mfa_verified`.  Returns the
response together with the resulting user table (backup-code consumption commits). -/
def verify_mfa (S : Settings) (now : Nat) (C : Crypto) (db : List User)
    (temp_token : Token) (code : String) :
    Except ApiError TokenWithRefresh × List User :=
  match decode_token S now temp_token with
  | none => (Except.error (ApiError.http 401 "Invalid or expired token"), db)
  | some payload =>
    if payload.user_id.getD "" = "" then
      (Except.error (ApiError.http 401 "Invalid token"), db)
    else
      match db.find? (fun u => u.id = payload.user_id.getD "") with
      | none => (Except.error (ApiError.http 401 "User not found"), db)
      | some user =>
        let token_data : Claims :=
          { sub := some user.email, user_id := some user.id, mfa_verified := some true }
        if verify_user_totp C user code then
          (Except.ok
            { access_token := create_access_token S now token_data none
              refresh_token := create_refresh_token S now token_data }, db)
        else
          match verify_user_backup_code C user code with
          | (true, user1) =>
            (Except.ok
              { access_token := create_access_token S now token_data none
                refresh_token := create_refresh_token S now token_data },
             commitUser db user1)
          | (false, _) =>
            (Except.error (ApiError.http 401 "Invalid MFA code"), db)

/-- Embeds `mfa.disable_mfa(request, current_user, db)`: 400 "MFA is not enabled" when the
flag is off (state untouched); 401 on password mismatch (state untouched; a
malformed stored digest would escape as the bcrypt error); else clear the MFA state
via `MFAService.disable_mfa`.  Returns the response together with the resulting
stored user row. -/
def disable_mfa_endpoint (current_user : User) (password : String) :
    Except ApiError String × User :=
  if current_user.mfa_enabled = false then
    (Except.error (ApiError.http 400 "MFA is not enabled"), current_user)
  else
    match verify_password password current_user.hashed_password with
    | Except.error e => (Except.error (ApiError.uncaught e), current_user)
    | Except.ok false =>
      (Except.error (ApiError.http 401 "Incorrect password"), current_user)
    | Except.ok true =>
      (Except.ok "MFA disabled successfully", service_disable_mfa current_user)

/-- Embeds `auth.forgot_password(request_data, db)`: generic success when the email is
unknown; 400 "Please verify your email first" when the account exists but is
unverified; else store a fresh reset token (`fresh_token`, `expiry` stand for the
randomly generated `EmailService.generate_token()` value and its expiry), send the
email, and return the same generic success.  Returns the response together with
the resulting user table. -/
def forgot_password (db : List User) (email : String)
    (fresh_token : String) (expiry : Nat) :
    Except ApiError String × List User :=
  match db.find? (fun u => u.email = email) with
  | none => (Except.ok "If that email exists, a reset link has been sent", db)
  | some user =>
    if user.email_verified = false then
      (Except.error (ApiError.http 400 "Please verify your email first"), db)
    else
      (Except.ok "If that email exists, a reset link has been sent",
       commitUser db
         { user with reset_token := some fresh_token,
                     reset_token_expires := some expiry })

/-- Embeds `auth.resend_verification(request_data, db)`: generic success when the email is
unknown; 400 "Email already verified" when the account exists and is verified;
else store a fresh verification token and return the same generic success.
Returns the response together with the resulting user table. -/
def resend_verification (db : List User) (email : String)
    (fresh_token : String) (expiry : Nat) :
    Except ApiError String × List User :=
  match db.find? (fun u => u.email = email) with
  | none =>
    (Except.ok "If that email exists, a verification link has been sent", db)
  | some user =>
    if user.email_verified then
      (Except.error (ApiError.http 400 "Email already verified"), db)
    else
      (Except.ok "If that email exists, a verification link has been sent",
       commitUser db
         { user with verification_token := some fresh_token,
                     verification_token_expires := some expiry })

/-!  ## Theorems -/

/-- C4: for every user whose role is granted exactly the permission set
`{users.*}`, `has_permission` returns true for `users.read` and `users.delete`
and false for `products.read`; and for every user whose role has a permission set that
contains `system.*`, `has_permission` returns true for every requested name. -/
theorem c4_wildcard_semantics (u : User) (r : Role) (hr : u.role = some r) :
    ((∀ n, n ∈ r.permissions.map Permission.name ↔ n = "users.*") →
      user_has_permission u "users.read" = true ∧
      user_has_permission u "users.delete" = true ∧
      user_has_permission u "products.read" = false) ∧
    ("system.*" ∈ r.permissions.map Permission.name →
      ∀ requested, user_has_permission u requested = true) := by
  have hperms : get_user_permissions u = r.permissions.map Permission.name := by
    simp [get_user_permissions, hr]
  constructor
  · intro hset
    have hsys : ¬ ("system.*" ∈ r.permissions.map Permission.name) := fun h =>
      absurd ((hset _).1 h) (by decide)
    have husers : ("users.*" ∈ r.permissions.map Permission.name) := (hset _).2 rfl
    have habs : ∀ n, ¬ (n = "users.*") → ¬ (n ∈ r.permissions.map Permission.name) :=
      fun n hn h => hn ((hset _).1 h)
    refine ⟨?_, ?_, ?_⟩
    · rw [user_has_permission, hperms, if_neg hsys,
        if_neg (habs "users.read" (by decide)), if_pos (by decide)]
      have hcat : permission_category "users.read" ++ ".*" = "users.*" := by decide
      rw [hcat, decide_eq_true husers]
    · rw [user_has_permission, hperms, if_neg hsys,
        if_neg (habs "users.delete" (by decide)), if_pos (by decide)]
      have hcat : permission_category "users.delete" ++ ".*" = "users.*" := by decide
      rw [hcat, decide_eq_true husers]
    · rw [user_has_permission, hperms, if_neg hsys,
        if_neg (habs "products.read" (by decide)), if_pos (by decide)]
      have hcat : permission_category "products.read" ++ ".*" = "products.*" := by decide
      rw [hcat, decide_eq_false (habs "products.*" (by decide))]
  · intro hsys requested
    rw [user_has_permission, hperms, if_pos hsys]

def c4RoleA : Role := { name := "staff", permissions := [{ name := "users.*" }] }

def c4UserA : User :=
  { id := "u1", email := "a@x.com", hashed_password := Digest.bcrypt "Passw0rd1",
    email_verified := true, role := some c4RoleA }

def c4RoleB : Role := { name := "root", permissions := [{ name := "system.*" }] }

def c4UserB : User :=
  { id := "u2", email := "b@x.com", hashed_password := Digest.bcrypt "Passw0rd1",
    email_verified := true, role := some c4RoleB }

/-- Witness for C4 at a concrete role granted `{users.*}` and one granted
`{system.*}`. -/
theorem c4_witness :
    user_has_permission c4UserA "users.read" = true ∧
    user_has_permission c4UserA "users.delete" = true ∧
    user_has_permission c4UserA "products.read" = false ∧
    user_has_permission c4UserB "products.read" = true := by
  have hA := (c4_wildcard_semantics c4UserA c4RoleA rfl).1 (by
    intro n
    simp [c4RoleA])
  have hB := (c4_wildcard_semantics c4UserB c4RoleB rfl).2 (by
    simp [c4RoleB]) "products.read"
  exact ⟨hA.1, hA.2.1, hA.2.2, hB⟩

/-- C10: `user_has_permission` never consults `is_superuser`; in particular a
superuser whose role grants neither `system.*`, nor the requested name, nor the
matching category wildcard, is denied. -/
theorem c10_superuser_not_consulted (u : User) (requested : String) :
    (∀ b, user_has_permission { u with is_superuser := b } requested =
      user_has_permission u requested) ∧
    (u.is_superuser = true →
      ¬ ("system.*" ∈ get_user_permissions u) →
      ¬ (requested ∈ get_user_permissions u) →
      ¬ ((permission_category requested ++ ".*") ∈ get_user_permissions u) →
      user_has_permission u requested = false) := by
  constructor
  · intro b
    cases u
    rfl
  · intro _ h1 h2 h3
    rw [user_has_permission, if_neg h1, if_neg h2]
    by_cases hd : '.' ∈ requested.toList
    · rw [if_pos hd, decide_eq_false h3]
    · rw [if_neg hd]

def c10User : User :=
  { id := "u3", email := "c@x.com", hashed_password := Digest.bcrypt "Passw0rd1",
    email_verified := true, is_superuser := true,
    role := some { name := "viewer", permissions := [{ name := "reports.read" }] } }

/-- Witness for C10: a superuser whose role only grants `reports.read` is denied
`users.read`. -/
theorem c10_witness : user_has_permission c10User "users.read" = false :=
  (c10_superuser_not_consulted c10User "users.read").2 rfl
    (by decide) (by decide) (by decide)

/-- C8 refutation: on a malformed digest, `verify_password` propagates the bcrypt
`ValueError("Invalid salt")` instead of returning false. -/
theorem c8_counterexample :
    verify_password "Passw0rd1" (Digest.malformed "not-a-bcrypt-digest") =
      Except.error "Invalid salt" ∧
    verify_password "Passw0rd1" (Digest.malformed "not-a-bcrypt-digest") ≠
      Except.ok false := by decide

/-- C8 amended: for every plaintext and malformed digest, `verify_password`
raises (propagates) the bcrypt invalid-salt error to the caller rather than
returning false. -/
theorem c8_malformed_digest_raises (plain raw : String) :
    verify_password plain (Digest.malformed raw) = Except.error "Invalid salt" := rfl

/-- C5 refutation: validating exactly at the `expires_at` instant still returns
the claims (python-jose expires a token only when `exp < now`), contradicting the
boundary clause. -/
theorem c5_counterexample :
    decode_token { SECRET_KEY := "k" } 300
        (create_access_token { SECRET_KEY := "k" } 0
          { sub := some "a@x.com", user_id := some "u1" } (some 300)) =
      some { sub := some "a@x.com", user_id := some "u1",
             exp := some 300, iat := some 0 } ∧
    decode_token { SECRET_KEY := "k" } 300
        (create_access_token { SECRET_KEY := "k" } 0
          { sub := some "a@x.com", user_id := some "u1" } (some 300)) ≠ none := by
  decide

/-- C5 amended: validating an issued token at or before `expires_at` returns the
original claims plus `exp`/`iat`; validating strictly after `expires_at` returns
invalid.  (The boundary instant is still accepted, not expired.) -/
theorem c5_round_trip (S : Settings) (data : Claims) (t0 ttl now : Nat) :
    (now ≤ t0 + ttl →
      decode_token S now (create_access_token S t0 data (some ttl)) =
        some { data with exp := some (t0 + ttl), iat := some t0 }) ∧
    (t0 + ttl < now →
      decode_token S now (create_access_token S t0 data (some ttl)) = none) := by
  constructor
  · intro h
    simp [decode_token, create_access_token, Nat.not_lt.2 h]
  · intro h
    simp [decode_token, create_access_token, h]

/-- Witness for C5: a 300-second token issued at 0 is accepted at 299 and
rejected at 301. -/
theorem c5_round_trip_witness :
    decode_token { SECRET_KEY := "k" } 299
        (create_access_token { SECRET_KEY := "k" } 0
          { sub := some "a@x.com" } (some 300)) =
      some { sub := some "a@x.com", exp := some 300, iat := some 0 } ∧
    decode_token { SECRET_KEY := "k" } 301
        (create_access_token { SECRET_KEY := "k" } 0
          { sub := some "a@x.com" } (some 300)) = none :=
  ⟨(c5_round_trip { SECRET_KEY := "k" } { sub := some "a@x.com" } 0 300 299).1
      (by decide),
   (c5_round_trip { SECRET_KEY := "k" } { sub := some "a@x.com" } 0 300 301).2
      (by decide)⟩

/-- Removing the first occurrence of `x` from a duplicate-free list leaves a list
not containing `x`. -/
theorem not_mem_removeFirst_of_nodup (l : List String) (x : String)
    (h : l.Nodup) : ¬ (x ∈ removeFirst l x) := by
  induction l with
  | nil => simp [removeFirst]
  | cons y ys ih =>
    rcases List.nodup_cons.mp h with ⟨hy, hys⟩
    by_cases hxy : y = x
    · subst hxy
      simpa [removeFirst] using hy
    · simp only [removeFirst, if_neg hxy, List.mem_cons]
      rintro (rfl | hmem)
      · exact hxy rfl
      · exact ih hys hmem

/-- C7: backup codes are single-use: when the stored hash set is duplicate-free,
a successful `verify_user_backup_code` removes the matched hash from the stored
set in the returned user row, the hash is no longer present, and repeating the
same code against the updated row fails. -/
theorem c7_backup_codes_single_use (C : Crypto) (u : User) (code : String)
    (hs : List String) (hcodes : u.mfa_backup_codes = some hs) (hnd : hs.Nodup)
    (hok : (verify_user_backup_code C u code).1 = true) :
    (verify_user_backup_code C u code).2.mfa_backup_codes =
      some (removeFirst hs (hash_backup_code C code)) ∧
    ¬ (hash_backup_code C code ∈ removeFirst hs (hash_backup_code C code)) ∧
    (verify_user_backup_code C (verify_user_backup_code C u code).2 code).1 =
      false := by
  have henabled : u.mfa_enabled = true := by
    by_contra hne
    rw [verify_user_backup_code, if_pos (Or.inl (by simpa using hne))] at hok
    exact Bool.false_ne_true hok
  have hcond : ¬ (u.mfa_enabled = false ∨ u.mfa_backup_codes.isNone) := by
    rw [henabled, hcodes]
    simp
  have hmem : hash_backup_code C code ∈ hs := by
    by_contra hnm
    rw [verify_user_backup_code, if_neg hcond, hcodes] at hok
    simp only [Option.getD_some, verify_backup_code, if_neg hnm] at hok
    exact Bool.false_ne_true hok
  have hres : verify_user_backup_code C u code =
      (true, { u with
        mfa_backup_codes := some (removeFirst hs (hash_backup_code C code)) }) := by
    rw [verify_user_backup_code, if_neg hcond, hcodes]
    simp only [Option.getD_some, verify_backup_code, if_pos hmem]
  have hnot := not_mem_removeFirst_of_nodup hs (hash_backup_code C code) hnd
  refine ⟨by rw [hres], hnot, ?_⟩
  rw [hres]
  simp [verify_user_backup_code, verify_backup_code, henabled, hnot]

def c7Crypto : Crypto :=
  { sha256hex := fun s => s, totp_verify := fun _ _ => false,
    b64decode := fun s => s }

def c7User : User :=
  { id := "u7", email := "g@x.com", hashed_password := Digest.bcrypt "Passw0rd1",
    email_verified := true, mfa_enabled := true, mfa_secret := some "SECRET",
    mfa_backup_codes := some ["ABCD2345", "EFGH6789"] }

/-- Witness for C7: consuming the backup code `ABCD2345` removes its hash, and a
second attempt with the same code fails. -/
theorem c7_witness :
    (verify_user_backup_code c7Crypto c7User "ABCD2345").2.mfa_backup_codes =
      some ["EFGH6789"] ∧
    ¬ ("ABCD2345" ∈ (["EFGH6789"] : List String)) ∧
    (verify_user_backup_code c7Crypto
      (verify_user_backup_code c7Crypto c7User "ABCD2345").2 "ABCD2345").1 =
      false :=
  c7_backup_codes_single_use c7Crypto c7User "ABCD2345" ["ABCD2345", "EFGH6789"]
    rfl (by decide) (by decide)

/-- C9: invoking the MFA-disable endpoint when MFA is already disabled — in
particular as the second of two consecutive calls — reports the MFA-not-enabled
error and returns the stored user row unchanged. -/
theorem c9_disable_mfa_idempotent_error (u : User) (pw pw2 : String) :
    (u.mfa_enabled = false →
      disable_mfa_endpoint u pw =
        (Except.error (ApiError.http 400 "MFA is not enabled"), u)) ∧
    (∀ msg u1, disable_mfa_endpoint u pw = (Except.ok msg, u1) →
      disable_mfa_endpoint u1 pw2 =
        (Except.error (ApiError.http 400 "MFA is not enabled"), u1)) := by
  constructor
  · intro h
    rw [disable_mfa_endpoint, if_pos h]
  · intro msg u1 h
    by_cases he : u.mfa_enabled = false
    · rw [disable_mfa_endpoint, if_pos he] at h
      simp at h
    · rw [disable_mfa_endpoint, if_neg he] at h
      cases hv : verify_password pw u.hashed_password with
      | error e =>
        rw [hv] at h
        simp at h
      | ok b =>
        rw [hv] at h
        cases b
        · simp at h
        · have hu1 : u1 = service_disable_mfa u := by
            simpa using (congrArg Prod.snd h).symm
          subst hu1
          simp [disable_mfa_endpoint, service_disable_mfa]

def c9User : User :=
  { id := "u9", email := "m@x.com", hashed_password := Digest.bcrypt "Passw0rd1",
    email_verified := true, mfa_enabled := true, mfa_secret := some "SECRET",
    mfa_backup_codes := some ["H1"] }

/-- Witness for C9: after a successful disable call, the second identical call
reports the MFA-not-enabled error and leaves the stored row unchanged. -/
theorem c9_witness :
    disable_mfa_endpoint (service_disable_mfa c9User) "Passw0rd1" =
      (Except.error (ApiError.http 400 "MFA is not enabled"),
       service_disable_mfa c9User) :=
  (c9_disable_mfa_idempotent_error c9User "Passw0rd1" "Passw0rd1").2
    "MFA disabled successfully" (service_disable_mfa c9User) (by decide)

def c1User : User :=
  { id := "u1", email := "a@x.com", hashed_password := Digest.bcrypt "Passw0rd1",
    email_verified := true,
    role := some { name := "staff", permissions := [{ name := "users.read" }] } }

/-- C1 refutation: a successful password login with MFA disabled mints a refresh
token whose claims include the `role` and `permissions` keys, not only subject
and user id. -/
theorem c1_counterexample :
    login { SECRET_KEY := "k" } 0 [c1User] "a@x.com" "Passw0rd1" =
      Except.ok (LoginResult.tokens
        { access_token := Token.signed "k"
            { sub := some "a@x.com", user_id := some "u1", role := some "staff",
              permissions := some ["users.read"], exp := some 1800, iat := some 0 }
          refresh_token := Token.signed "k"
            { sub := some "a@x.com", user_id := some "u1", role := some "staff",
              permissions := some ["users.read"], exp := some 604800,
              iat := some 0 } }) := by decide

/-- C1 amended: the refresh token minted by a successful password login (MFA
disabled) carries the full login claim set — subject, user id, role name and the
resolved permission list — identical to the claims of the session token except for
expiry; it is not restricted to subject and user id. -/
theorem c1_refresh_token_claims (S : Settings) (now : Nat) (db : List User)
    (email password : String) (pair : TokenWithRefresh)
    (h : login S now db email password = Except.ok (LoginResult.tokens pair)) :
    ∃ u, db.find? (fun v => v.email = email) = some u ∧
      pair.refresh_token = Token.signed S.SECRET_KEY
        { login_token_data u with
            exp := some (now + S.REFRESH_TOKEN_EXPIRE_DAYS * 86400),
            iat := some now } ∧
      (login_token_data u).sub = some u.email ∧
      (login_token_data u).user_id = some u.id ∧
      ¬ ((login_token_data u).role = none) ∧
      ¬ ((login_token_data u).permissions = none) := by
  cases hf : db.find? (fun v => v.email = email) with
  | none =>
    rw [login] at h
    simp only [hf] at h
    simp at h
  | some user =>
    rw [login] at h
    simp only [hf] at h
    cases hv : verify_password password user.hashed_password with
    | error e =>
      simp only [hv] at h
      simp at h
    | ok b =>
      simp only [hv] at h
      cases b
      · simp at h
      · by_cases ha : user.is_active = false
        · rw [if_pos ha] at h
          simp at h
        · rw [if_neg ha] at h
          by_cases hev : user.email_verified = false
          · rw [if_pos hev] at h
            simp at h
          · rw [if_neg hev] at h
            by_cases hm : user.mfa_enabled = true
            · rw [if_pos hm] at h
              simp at h
            · rw [if_neg hm] at h
              injection h with h1
              injection h1 with h2
              subst h2
              refine ⟨user, rfl, rfl, rfl, rfl, ?_, ?_⟩
              · simp [login_token_data]
              · simp [login_token_data]

/-- The token pair the counterexample login run produces; used to instantiate the
C1 theorem at a concrete input. -/
def c1Pair : TokenWithRefresh :=
  { access_token := Token.signed "k"
      { sub := some "a@x.com", user_id := some "u1", role := some "staff",
        permissions := some ["users.read"], exp := some 1800, iat := some 0 }
    refresh_token := Token.signed "k"
      { sub := some "a@x.com", user_id := some "u1", role := some "staff",
        permissions := some ["users.read"], exp := some 604800, iat := some 0 } }

/-- Witness for C1 at the concrete login run of the counterexample. -/
theorem c1_witness :
    ∃ u, [c1User].find? (fun v => v.email = "a@x.com") = some u ∧
      c1Pair.refresh_token = Token.signed "k"
        { login_token_data u with exp := some (0 + 7 * 86400), iat := some 0 } ∧
      (login_token_data u).sub = some u.email ∧
      (login_token_data u).user_id = some u.id ∧
      ¬ ((login_token_data u).role = none) ∧
      ¬ ((login_token_data u).permissions = none) :=
  c1_refresh_token_claims { SECRET_KEY := "k" } 0 [c1User] "a@x.com" "Passw0rd1"
    c1Pair (by decide)

def c6User : User :=
  { id := "u6", email := "f@x.com", hashed_password := Digest.bcrypt "Passw0rd1",
    email_verified := true,
    role := some { name := "staff", permissions := [{ name := "users.read" }] } }

/-- C6 refutation: refreshing with a valid refresh token for an active user whose
fresh permission resolution is `["users.read"]` mints an access token with no
`permissions` claim at all (and no `role`): permissions are omitted, not
re-resolved. -/
theorem c6_counterexample :
    refresh_endpoint { SECRET_KEY := "k" } 0 [c6User]
        (Token.signed "k" { sub := some "f@x.com", user_id := some "u6" }) =
      Except.ok { access_token := (Token.signed "k"
        { sub := some "f@x.com", user_id := some "u6",
          exp := some 1800, iat := some 0 }) } ∧
    get_user_permissions c6User = ["users.read"] ∧
    Claims.permissions
        { sub := some "f@x.com", user_id := some "u6",
          exp := some 1800, iat := some 0 } = none := by decide

/-- C6 amended: on a valid refresh token naming an existing active user, the
refresh operation mints a new access token carrying only subject and user id
(plus `exp`/`iat`); the permission list is neither re-resolved nor copied — the
`permissions` and `role` claims are absent. -/
theorem c6_refresh_omits_permissions (S : Settings) (now : Nat) (db : List User)
    (tok : Token) (out : TokenOut)
    (h : refresh_endpoint S now db tok = Except.ok out) :
    ∃ payload s u, decode_token S now tok = some payload ∧
      payload.sub = some s ∧
      db.find? (fun v => v.email = s) = some u ∧
      u.is_active = true ∧
      out = { access_token := (Token.signed S.SECRET_KEY
        { sub := some u.email, user_id := some u.id,
          exp := some (now + S.ACCESS_TOKEN_EXPIRE_MINUTES * 60),
          iat := some now }) } := by
  rw [refresh_endpoint] at h
  cases hd : decode_token S now tok with
  | none =>
    simp only [hd] at h
    simp at h
  | some payload =>
    simp only [hd] at h
    cases hsub : payload.sub with
    | none =>
      simp only [hsub] at h
      simp at h
    | some s =>
      simp only [hsub] at h
      cases hf : db.find? (fun v => v.email = s) with
      | none =>
        simp only [hf] at h
        simp at h
      | some u =>
        simp only [hf] at h
        by_cases ha : u.is_active = false
        · rw [if_pos ha] at h
          simp at h
        · rw [if_neg ha] at h
          refine ⟨payload, s, u, rfl, hsub, hf, eq_true_of_ne_false ha, ?_⟩
          injection h with h1
          exact h1.symm

/-- Witness for C6 at the concrete refresh run of the counterexample. -/
theorem c6_witness :
    ∃ payload s u,
      decode_token { SECRET_KEY := "k" } 0
          (Token.signed "k" { sub := some "f@x.com", user_id := some "u6" }) =
        some payload ∧
      payload.sub = some s ∧
      [c6User].find? (fun v => v.email = s) = some u ∧
      u.is_active = true ∧
      ({ access_token := (Token.signed "k"
          { sub := some "f@x.com", user_id := some "u6",
            exp := some 1800, iat := some 0 }) } : TokenOut) =
        { access_token := (Token.signed "k"
          { sub := some u.email, user_id := some u.id,
            exp := some (0 + 30 * 60), iat := some 0 }) } :=
  c6_refresh_omits_permissions { SECRET_KEY := "k" } 0 [c6User]
    (Token.signed "k" { sub := some "f@x.com", user_id := some "u6" })
    { access_token := (Token.signed "k"
        { sub := some "f@x.com", user_id := some "u6",
          exp := some 1800, iat := some 0 }) }
    (by decide)

def c2Crypto : Crypto :=
  { sha256hex := fun s => s, totp_verify := fun _ _ => true,
    b64decode := fun s => s }

def c2User : User :=
  { id := "u1", email := "a@x.com", hashed_password := Digest.bcrypt "Passw0rd1",
    email_verified := true, mfa_enabled := true, mfa_secret := some "SECRET" }

/-- C2 refutation: a valid signed token whose claims lack `mfa_pending` (here, a
token with exactly the claim shape the refresh endpoint mints) is not rejected:
code verification is attempted and, the code being valid, the operation returns a
full session/refresh pair. -/
theorem c2_counterexample :
    Claims.mfa_pending
        { sub := some "a@x.com", user_id := some "u1",
          exp := some 100, iat := some 0 } = none ∧
    verify_mfa { SECRET_KEY := "k" } 0 c2Crypto [c2User]
        (Token.signed "k"
          { sub := some "a@x.com", user_id := some "u1",
            exp := some 100, iat := some 0 })
        "123456" =
      (Except.ok
        { access_token := (Token.signed "k"
            { sub := some "a@x.com", user_id := some "u1",
              mfa_verified := some true, exp := some 1800, iat := some 0 }),
          refresh_token := (Token.signed "k"
            { sub := some "a@x.com", user_id := some "u1",
              mfa_verified := some true, exp := some 604800, iat := some 0 }) },
       [c2User]) := by decide

/-- C2 amended: the MFA verification operation never consults the `mfa_pending`
claim: its outcome (response and resulting store) is invariant under arbitrary
changes of that claim in the payload of the submitted token.  Acceptance depends only
on signature/expiry validity, a non-empty `user_id` naming an existing user, and
the code check. -/
theorem c2_mfa_pending_not_consulted (S : Settings) (now : Nat) (C : Crypto)
    (db : List User) (key : String) (payload : Claims) (code : String)
    (x y : Option Bool) :
    verify_mfa S now C db
        (Token.signed key { payload with mfa_pending := x }) code =
      verify_mfa S now C db
        (Token.signed key { payload with mfa_pending := y }) code := by
  by_cases hk : key = S.SECRET_KEY
  · cases he : payload.exp with
    | none =>
      simp only [verify_mfa, decode_token, if_pos hk, he]
    | some e =>
      by_cases hlt : e < now
      · simp only [verify_mfa, decode_token, if_pos hk, he, if_pos hlt]
      · simp only [verify_mfa, decode_token, if_pos hk, he, if_neg hlt]
  · simp only [verify_mfa, decode_token, if_neg hk]

def c3UserU : User :=
  { id := "u31", email := "a@x.com", hashed_password := Digest.bcrypt "Passw0rd1",
    email_verified := false }

def c3UserV : User :=
  { id := "u32", email := "a@x.com", hashed_password := Digest.bcrypt "Passw0rd1",
    email_verified := true }

/-- C3 refutation: two runs differing only in whether the account exists (the
existing account being unverified) produce different `forgot_password` responses
— generic success versus a 400 error; likewise `resend_verification` errors on a
verified account while answering generically when the email is absent. -/
theorem c3_counterexample :
    (forgot_password [] "a@x.com" "tok" 3600).1 =
      Except.ok "If that email exists, a reset link has been sent" ∧
    (forgot_password [c3UserU] "a@x.com" "tok" 3600).1 =
      Except.error (ApiError.http 400 "Please verify your email first") ∧
    ¬ ((forgot_password [] "a@x.com" "tok" 3600).1 =
       (forgot_password [c3UserU] "a@x.com" "tok" 3600).1) ∧
    (resend_verification [] "a@x.com" "tok" 3600).1 =
      Except.ok "If that email exists, a verification link has been sent" ∧
    (resend_verification [c3UserV] "a@x.com" "tok" 3600).1 =
      Except.error (ApiError.http 400 "Email already verified") ∧
    ¬ ((resend_verification [] "a@x.com" "tok" 3600).1 =
       (resend_verification [c3UserV] "a@x.com" "tok" 3600).1) := by decide

/-- C3 amended: `forgot_password` returns the identical generic success whether
the email is absent or belongs to a verified account, and `resend_verification`
returns the identical generic success whether the email is absent or belongs to
an unverified account; but an unverified account makes `forgot_password` return
a 400 error, and a verified account makes `resend_verification` return a 400
error, so verification state (and with it existence) is distinguishable. -/
theorem c3_enumeration_by_state (db1 db2 : List User) (email t1 t2 : String)
    (e1 e2 : Nat) (u : User)
    (h1 : db1.find? (fun v => v.email = email) = none)
    (h2 : db2.find? (fun v => v.email = email) = some u) :
    (u.email_verified = true →
      (forgot_password db1 email t1 e1).1 = (forgot_password db2 email t2 e2).1 ∧
      (resend_verification db2 email t2 e2).1 =
        Except.error (ApiError.http 400 "Email already verified")) ∧
    (u.email_verified = false →
      (resend_verification db1 email t1 e1).1 =
        (resend_verification db2 email t2 e2).1 ∧
      (forgot_password db2 email t2 e2).1 =
        Except.error (ApiError.http 400 "Please verify your email first")) := by
  constructor
  · intro hv
    constructor
    · simp [forgot_password, h1, h2, hv]
    · simp [resend_verification, h2, hv]
  · intro hv
    constructor
    · simp [resend_verification, h1, h2, hv]
    · simp [forgot_password, h2, hv]

/-- Witness for C3: the generic-success equalities at concrete stores — empty
store versus a verified account for `forgot_password`, empty store versus an
unverified account for `resend_verification`. -/
theorem c3_witness :
    (forgot_password [] "a@x.com" "t1" 1).1 =
      (forgot_password [c3UserV] "a@x.com" "t2" 2).1 ∧
    (resend_verification [] "a@x.com" "t1" 1).1 =
      (resend_verification [c3UserU] "a@x.com" "t2" 2).1 :=
  ⟨((c3_enumeration_by_state [] [c3UserV] "a@x.com" "t1" "t2" 1 2 c3UserV
      rfl (by decide)).1 rfl).1,
   ((c3_enumeration_by_state [] [c3UserU] "a@x.com" "t1" "t2" 1 2 c3UserU
      rfl (by decide)).2 rfl).1⟩

end AdminDash
